import Mathlib

/-!
Lifecycle contract of `src/driver/driver.c`

A shallow embedding of the loadable extension in `src/driver/driver.c`:

```c
static int driver_init(void)  { printk(KERN_ALERT "Hello, world\n"); return 0; }
static void driver_exit(void) { printk(KERN_ALERT "Goodbye, cruel world\n"); }
module_init(driver_init);
module_exit(driver_exit);
MODULE_LICENSE("GPL");
```

The C functions act on the running kernel; here the kernel is an explicit state
that every function receives and returns.  The two callbacks and the
registration record are translated from the source.  `printk`, the severity
macros and the host loader belong to the host kernel and are not part of the
source tree; they are modelled from the specification and marked as such.
-/

namespace Driver

variable {σ τ : Type}

/-! ## The host's log sink -/

/-- Modelled from the spec: the severity tag accepted by the host's log sink
(§6 "accepts a severity/facility tag and a message string").  The source uses
the tag through the host macro `KERN_ALERT`, whose header is not in the source
tree; the eight constructors are the host's severity names, so that `KERN_ALERT`
is one tag among several. -/
inductive LogLevel where
  | KERN_EMERG
  | KERN_ALERT
  | KERN_CRIT
  | KERN_ERR
  | KERN_WARNING
  | KERN_NOTICE
  | KERN_INFO
  | KERN_DEBUG
  deriving DecidableEq

/-- One message held by the log sink: its severity tag and its text. -/
structure LogEntry where
  level : LogLevel
  text : String
  deriving DecidableEq

/-- The running kernel as the extension can affect it: the log sink, oldest
message first, and `other`, which stands for every other piece of kernel state. -/
structure Kernel (σ : Type) where
  log : List LogEntry
  other : σ

/-- Modelled from the spec: `printk`, the Diagnostic Emitter's entry point into
the host's log sink (§4.2 `emit(message, severity)`: fire-and-forget, no result
observed by the caller; §5 "mutated only by appending").  Both format strings of
the source are free of conversion specifiers, so the text logged is the format
string itself. -/
def printk (level : LogLevel) (fmt : String) (k : Kernel σ) : Kernel σ :=
  { k with log := k.log ++ [⟨level, fmt⟩] }

/-! ## The extension (`src/driver/driver.c`) -/

/-- The entry callback, `static int driver_init(void)` (lines 4-8). -/
def driver_init (k : Kernel σ) : Int × Kernel σ :=
  let k := printk LogLevel.KERN_ALERT "Hello, world\n" k
  (0, k)

/-- The exit callback, `static void driver_exit(void)` (lines 10-13). -/
def driver_exit (k : Kernel σ) : Unit × Kernel σ :=
  let k := printk LogLevel.KERN_ALERT "Goodbye, cruel world\n" k
  ((), k)

/-- What an extension registers with the host: the function given to
`module_init`, the function given to `module_exit`, and the string given to
`MODULE_LICENSE`. -/
structure Module (σ : Type) where
  init : Kernel σ → Int × Kernel σ
  exit : Kernel σ → Unit × Kernel σ
  license : String

/-- The registration made by lines 15-17:
`module_init(driver_init); module_exit(driver_exit); MODULE_LICENSE("GPL");`. -/
def this_module : Module σ :=
  ⟨driver_init, driver_exit, "GPL"⟩

/-! ## Status codes -/

/-- The values of the C type `int`, the result type of `driver_init`. -/
def isStatus (s : Int) : Bool :=
  decide (-2147483648 ≤ s ∧ s ≤ 2147483647)

/-- The success sentinel of the entry callback contract (§6: "zero means
success"). -/
def isSuccess (s : Int) : Bool :=
  s == 0

/-- The failure sentinels of the entry callback contract (§6: "any
negative/nonzero sentinel means failure"). -/
def isFailure (s : Int) : Bool :=
  s != 0

/-! ## Observing what a callback emitted -/

/-- The messages present in `after` beyond the first `before.length` ones: what
was emitted between two observations of the log. -/
def emitted (before after : List LogEntry) : List LogEntry :=
  after.drop before.length

/-- The two lifecycle callbacks by role. -/
inductive Callback where
  | onLoad
  | onUnload
  deriving DecidableEq

/-- Invoke one callback of this extension on the kernel and keep the kernel;
the status of `driver_init` is read by `hostOrdered`, not here. -/
def invoke (c : Callback) (k : Kernel σ) : Kernel σ :=
  match c with
  | Callback.onLoad => (driver_init k).2
  | Callback.onUnload => (driver_exit k).2

/-- Invoke a sequence of callbacks, first to last. -/
def invokeAll : List Callback → Kernel σ → Kernel σ
  | [], k => k
  | c :: cs, k => invokeAll cs (invoke c k)

/-- Modelled from the spec: the residency of the extension (§3), owned by the
host loader. -/
inductive Residency where
  | Unloaded
  | Loaded
  deriving DecidableEq

/-- Host ordering of a sequence of callback invocations (§5, §8), checked along
the run: `onLoad` only while Unloaded, leading to Loaded exactly when
`driver_init` returned success; `onUnload` only while Loaded, leading back to
Unloaded. -/
def hostOrdered : Residency → Kernel σ → List Callback → Bool
  | _, _, [] => true
  | r, k, Callback.onLoad :: cs =>
      r == Residency.Unloaded &&
        hostOrdered (if isSuccess (driver_init k).1 then Residency.Loaded else Residency.Unloaded)
          (driver_init k).2 cs
  | r, k, Callback.onUnload :: cs =>
      r == Residency.Loaded && hostOrdered Residency.Unloaded (driver_exit k).2 cs

/-- The kernel after `n` complete load/unload cycles of this extension. -/
def cycles : Nat → Kernel σ → Kernel σ
  | 0, k => k
  | n + 1, k => cycles n (driver_exit (driver_init k).2).2

/-! ## The host loader -/

/-- A callback invocation made by the host, as seen from outside: the entry
callback together with the status it returned, or the exit callback. -/
inductive Event where
  | entry (status : Int)
  | exit
  deriving DecidableEq

/-- A request made to the host about one extension. -/
inductive Request where
  | load
  | unload
  deriving DecidableEq

/-- What the host reports for a request. -/
inductive Report where
  | loaded
  | loadFailed (status : Int)
  | unloaded
  | rejected
  deriving DecidableEq

/-- The host's view of one extension: its residency, the kernel, and the
callback invocations made so far, most recent first. -/
structure Host (σ : Type) where
  residency : Residency
  kernel : Kernel σ
  trace : List Event

/-- The host before any request: Unloaded (§3 "Unloaded (initial)"), nothing
invoked yet. -/
def boot (k : Kernel σ) : Host σ :=
  ⟨Residency.Unloaded, k, []⟩

/-- Modelled from the spec: the host's module loader, which is not part of the
source tree.  §4.1: a load invokes the entry callback; status zero makes the
extension Loaded, any other status aborts the load, which is reported as failed
and leaves the extension Unloaded.  An unload is honoured only while Loaded
(§4.1 "invoked by the host only if the extension is currently Loaded"), runs the
exit callback and returns to Unloaded (§3).  A load while Loaded is forbidden by
the host (§8) and invokes nothing.  Licence gating (§4.1) happens before any
callback and is left out. -/
def Host.step (m : Module σ) (h : Host σ) : Request → Report × Host σ
  | Request.load =>
      match h.residency with
      | Residency.Loaded => (Report.rejected, h)
      | Residency.Unloaded =>
          if (m.init h.kernel).1 = 0 then
            (Report.loaded,
              ⟨Residency.Loaded, (m.init h.kernel).2, Event.entry (m.init h.kernel).1 :: h.trace⟩)
          else
            (Report.loadFailed (m.init h.kernel).1,
              ⟨Residency.Unloaded, (m.init h.kernel).2,
                Event.entry (m.init h.kernel).1 :: h.trace⟩)
  | Request.unload =>
      match h.residency with
      | Residency.Unloaded => (Report.rejected, h)
      | Residency.Loaded =>
          (Report.unloaded, ⟨Residency.Unloaded, (m.exit h.kernel).2, Event.exit :: h.trace⟩)

/-- Serve a sequence of requests, first to last. -/
def Host.run (m : Module σ) : Host σ → List Request → Host σ
  | h, [] => h
  | h, r :: rs => Host.run m (Host.step m h r).2 rs

/-- On a trace written most recent first: every invocation of the exit callback
has, as the invocation made just before it, an entry callback that returned
zero. -/
def exitsFollowSuccess : List Event → Bool
  | [] => true
  | Event.entry _ :: es => exitsFollowSuccess es
  | Event.exit :: es => (es.head? == some (Event.entry 0)) && exitsFollowSuccess es

/-- Scenario C of the spec: an extension whose entry callback is forced to
return `status`; it emits its message like `driver_init` and registers the same
exit callback. -/
def forced_status (status : Int) : Module σ :=
  ⟨fun k => (status, (driver_init k).2), driver_exit, "GPL"⟩

/-- The greeting logged at load: `KERN_ALERT "Hello, world\n"`. -/
def helloEntry : LogEntry :=
  ⟨LogLevel.KERN_ALERT, "Hello, world\n"⟩

/-- The farewell logged at unload: `KERN_ALERT "Goodbye, cruel world\n"`. -/
def goodbyeEntry : LogEntry :=
  ⟨LogLevel.KERN_ALERT, "Goodbye, cruel world\n"⟩

/-- A small concrete kernel: one earlier message in the log. -/
def sampleKernel : Kernel Nat :=
  ⟨[⟨LogLevel.KERN_INFO, "boot\n"⟩], 7⟩

/-- The loader invariant: the trace is well ordered, and while the extension is
Loaded the most recent invocation is an entry callback that returned zero. -/
def hostInv (h : Host σ) : Prop :=
  exitsFollowSuccess h.trace = true ∧
    (h.residency = Residency.Loaded → h.trace.head? = some (Event.entry 0))

/-! ## Helper lemmas -/

theorem printk_log (l : LogLevel) (s : String) (k : Kernel σ) :
    (printk l s k).log = k.log ++ [⟨l, s⟩] := rfl

theorem driver_init_log (k : Kernel σ) :
    (driver_init k).2.log = k.log ++ [helloEntry] := rfl

theorem driver_exit_log (k : Kernel σ) :
    (driver_exit k).2.log = k.log ++ [goodbyeEntry] := rfl

theorem emitted_append (l t : List LogEntry) : emitted l (l ++ t) = t := by
  simp [emitted]

theorem invoke_log (c : Callback) (k : Kernel σ) :
    ∃ e, (invoke c k).log = k.log ++ [e] := by
  cases c
  · exact ⟨helloEntry, rfl⟩
  · exact ⟨goodbyeEntry, rfl⟩

theorem invokeAll_log (cs : List Callback) (k : Kernel σ) :
    ∃ t, (invokeAll cs k).log = k.log ++ t ∧ t.length = cs.length := by
  induction cs generalizing k with
  | nil => exact ⟨[], by simp [invokeAll], rfl⟩
  | cons c cs ih =>
      obtain ⟨e, he⟩ := invoke_log c k
      obtain ⟨t, ht, hlen⟩ := ih (invoke c k)
      refine ⟨e :: t, ?_, by simp [hlen]⟩
      simp [invokeAll, ht, he]

theorem hostInv_boot (k : Kernel σ) : hostInv (boot k) :=
  ⟨rfl, fun h => nomatch h⟩

theorem hostInv_step (m : Module σ) (h : Host σ) (r : Request) (hi : hostInv h) :
    hostInv (Host.step m h r).2 := by
  obtain ⟨res, k, tr⟩ := h
  obtain ⟨htr, hhead⟩ := hi
  cases r <;> cases res
  · -- load while Unloaded
    by_cases hs : (m.init k).1 = 0
    · simp only [Host.step, hs, if_true]
      exact ⟨htr, fun _ => rfl⟩
    · simp only [Host.step, hs, if_false]
      exact ⟨htr, fun hl => nomatch hl⟩
  · -- load while Loaded
    exact ⟨htr, hhead⟩
  · -- unload while Unloaded
    exact ⟨htr, hhead⟩
  · -- unload while Loaded
    refine ⟨?_, fun hl => nomatch hl⟩
    have h0 : tr.head? = some (Event.entry 0) := hhead rfl
    simp only [Host.step, exitsFollowSuccess, h0, htr]
    decide

theorem hostInv_run (m : Module σ) (rs : List Request) (h : Host σ) (hi : hostInv h) :
    hostInv (Host.run m h rs) := by
  induction rs generalizing h with
  | nil => exact hi
  | cons r rs ih => exact ih _ (hostInv_step m h r hi)

/-! ## The claims -/

/-- C1: every invocation of the entry callback `driver_init`, whatever the
kernel state and the prior contents of the log, returns status 0: a value of the
status domain, the success sentinel, and not a failure sentinel. -/
theorem driver_init_returns_success (k : Kernel σ) :
    (driver_init k).1 = 0 ∧ isStatus (driver_init k).1 = true ∧
      isSuccess (driver_init k).1 = true ∧ isFailure (driver_init k).1 = false :=
  ⟨rfl, rfl, rfl, rfl⟩

/-- C2: for every prior log, one invocation of `driver_init` emits exactly one
message: the log after the call is the log before it followed by one entry, so
its length is the length before plus one. -/
theorem driver_init_emits_exactly_one (k : Kernel σ) :
    (driver_init k).2.log.length = k.log.length + 1 ∧
      (emitted k.log (driver_init k).2.log).length = 1 ∧
      (driver_init k).2.log = k.log ++ emitted k.log (driver_init k).2.log := by
  rw [driver_init_log, emitted_append]
  simp

/-- C3: for every prior log, one invocation of `driver_exit` returns the unit
value (its result type `Unit` carries no status) and emits exactly one message:
the log after the call is the log before it followed by one entry. -/
theorem driver_exit_void_emits_exactly_one (k : Kernel σ) :
    (driver_exit k).1 = () ∧
      (driver_exit k).2.log.length = k.log.length + 1 ∧
      (emitted k.log (driver_exit k).2.log).length = 1 ∧
      (driver_exit k).2.log = k.log ++ emitted k.log (driver_exit k).2.log := by
  rw [driver_exit_log, emitted_append]
  simp

/-- C4: for any finite sequence of callback invocations that respects host
ordering from the Unloaded state, started from any kernel and log, the messages
emitted over the whole sequence are appended to the prior log and their number
equals the number of callback invocations. -/
theorem log_count_matches_invocations (k : Kernel σ) (cs : List Callback)
    (_h : hostOrdered Residency.Unloaded k cs = true) :
    (invokeAll cs k).log = k.log ++ emitted k.log (invokeAll cs k).log ∧
      (emitted k.log (invokeAll cs k).log).length = cs.length ∧
      (invokeAll cs k).log.length = k.log.length + cs.length := by
  obtain ⟨t, ht, hlen⟩ := invokeAll_log cs k
  rw [ht, emitted_append]
  simp [hlen]

/-- Witness for C4: two and a half cycles (load, unload, load, unload, load)
from a kernel that already holds one message. -/
theorem log_count_matches_invocations_witness :
    hostOrdered Residency.Unloaded sampleKernel
        [Callback.onLoad, Callback.onUnload, Callback.onLoad, Callback.onUnload,
          Callback.onLoad] = true ∧
      ((invokeAll [Callback.onLoad, Callback.onUnload, Callback.onLoad, Callback.onUnload,
            Callback.onLoad] sampleKernel).log =
          sampleKernel.log ++ emitted sampleKernel.log
            (invokeAll [Callback.onLoad, Callback.onUnload, Callback.onLoad,
              Callback.onUnload, Callback.onLoad] sampleKernel).log ∧
        (emitted sampleKernel.log
            (invokeAll [Callback.onLoad, Callback.onUnload, Callback.onLoad,
              Callback.onUnload, Callback.onLoad] sampleKernel).log).length =
          [Callback.onLoad, Callback.onUnload, Callback.onLoad, Callback.onUnload,
            Callback.onLoad].length ∧
        (invokeAll [Callback.onLoad, Callback.onUnload, Callback.onLoad, Callback.onUnload,
            Callback.onLoad] sampleKernel).log.length =
          sampleKernel.log.length +
            [Callback.onLoad, Callback.onUnload, Callback.onLoad, Callback.onUnload,
              Callback.onLoad].length) :=
  ⟨by decide, log_count_matches_invocations sampleKernel _ (by decide)⟩

/-- C5: the single message emitted by `driver_init` is the greeting
`Hello, world` at severity `KERN_ALERT`, and it identifies the load transition:
no invocation of `driver_exit`, from any kernel, emits that message. -/
theorem driver_init_message_identifies_load (k : Kernel σ) :
    emitted k.log (driver_init k).2.log = [⟨LogLevel.KERN_ALERT, "Hello, world\n"⟩] ∧
      ∀ k2 : Kernel τ,
        emitted k2.log (driver_exit k2).2.log ≠ emitted k.log (driver_init k).2.log := by
  refine ⟨?_, fun k2 => ?_⟩
  · rw [driver_init_log, emitted_append]; rfl
  · rw [driver_init_log, driver_exit_log, emitted_append, emitted_append]
    decide

/-- C6: the single message emitted by `driver_exit`, invoked on the kernel left
by a successful `driver_init`, is the farewell `Goodbye, cruel world` at
severity `KERN_ALERT`, and it identifies the unload transition: no invocation of
`driver_init`, from any kernel, emits that message. -/
theorem driver_exit_message_identifies_unload (k : Kernel σ) :
    isSuccess (driver_init k).1 = true ∧
      emitted (driver_init k).2.log (driver_exit (driver_init k).2).2.log =
        [⟨LogLevel.KERN_ALERT, "Goodbye, cruel world\n"⟩] ∧
      ∀ k2 : Kernel τ,
        emitted k2.log (driver_init k2).2.log ≠
          emitted (driver_init k).2.log (driver_exit (driver_init k).2).2.log := by
  refine ⟨rfl, ?_, fun k2 => ?_⟩
  · rw [driver_exit_log, emitted_append]; rfl
  · rw [driver_exit_log, driver_init_log k2, emitted_append, emitted_append]
    decide

/-- C7: both callbacks change the kernel only by appending to the log: the log
before the call is an initial segment of the log after it, and the rest of the
kernel state is unchanged. -/
theorem callbacks_only_append_to_log (k : Kernel σ) :
    k.log <+: (driver_init k).2.log ∧ k.log <+: (driver_exit k).2.log ∧
      (driver_init k).2.other = k.other ∧ (driver_exit k).2.other = k.other :=
  ⟨⟨[helloEntry], rfl⟩, ⟨[goodbyeEntry], rfl⟩, rfl, rfl⟩

/-- C8: in the loader state machine, for any registered extension, a load
attempt made while Unloaded whose entry callback returns a nonzero status is
reported as failed with that status, leaves the extension Unloaded, invokes the
entry callback only, and an unload request after it is rejected without invoking
anything; and over any sequence of requests from boot, every invocation of the
exit callback comes directly after an entry callback that returned zero. -/
theorem failed_load_never_reaches_exit (m : Module σ) :
    (∀ h : Host σ, h.residency = Residency.Unloaded → (m.init h.kernel).1 ≠ 0 →
        (Host.step m h Request.load).1 = Report.loadFailed (m.init h.kernel).1 ∧
          (Host.step m h Request.load).2.residency = Residency.Unloaded ∧
          (Host.step m h Request.load).2.trace = Event.entry (m.init h.kernel).1 :: h.trace ∧
          Host.step m (Host.step m h Request.load).2 Request.unload =
            (Report.rejected, (Host.step m h Request.load).2)) ∧
      ∀ (k : Kernel σ) (reqs : List Request),
        exitsFollowSuccess (Host.run m (boot k) reqs).trace = true := by
  refine ⟨fun h hu hs => ?_, fun k reqs => (hostInv_run m reqs (boot k) (hostInv_boot k)).1⟩
  obtain ⟨res, k, tr⟩ := h
  cases hu
  simp only [Host.step, hs, if_false, and_self]

/-- Witness for C8: an entry callback forced to return -12, loaded from boot. -/
theorem failed_load_never_reaches_exit_witness :
    (boot sampleKernel).residency = Residency.Unloaded ∧
      ((forced_status (-12)).init (boot sampleKernel).kernel).1 ≠ 0 ∧
      (Host.step (forced_status (-12)) (boot sampleKernel) Request.load).1 =
        Report.loadFailed (-12) ∧
      (Host.step (forced_status (-12)) (boot sampleKernel) Request.load).2.residency =
        Residency.Unloaded ∧
      (Host.step (forced_status (-12)) (boot sampleKernel) Request.load).2.trace =
        [Event.entry (-12)] ∧
      Host.step (forced_status (-12))
          (Host.step (forced_status (-12)) (boot sampleKernel) Request.load).2 Request.unload =
        (Report.rejected, (Host.step (forced_status (-12)) (boot sampleKernel) Request.load).2) :=
  ⟨rfl, by decide,
    (failed_load_never_reaches_exit (forced_status (-12))).1 (boot sampleKernel) rfl (by decide)⟩

/-- C9: for every initial log, calling the registered entry callback returns
status 0, and calling the registered exit callback on the resulting kernel
leaves the log equal to the initial log followed by exactly two entries:
`Hello, world` at `KERN_ALERT`, then `Goodbye, cruel world` at `KERN_ALERT`. -/
theorem load_unload_cycle_log (k : Kernel σ) :
    (this_module.init k).1 = 0 ∧
      (this_module.exit (this_module.init k).2).2.log =
        k.log ++ [⟨LogLevel.KERN_ALERT, "Hello, world\n"⟩,
          ⟨LogLevel.KERN_ALERT, "Goodbye, cruel world\n"⟩] := by
  refine ⟨rfl, ?_⟩
  show (driver_exit (driver_init k).2).2.log = _
  rw [driver_exit_log, driver_init_log, List.append_assoc]
  rfl

/-- C10: the callbacks are stateless and deterministic: for any two kernels
(different logs, different other state), each after any number of earlier
load/unload cycles, `driver_init` returns the same status and emits the same
message, and `driver_exit` emits the same message. -/
theorem callbacks_independent_of_history (k1 : Kernel σ) (k2 : Kernel τ) (n1 n2 : Nat) :
    (driver_init (cycles n1 k1)).1 = (driver_init (cycles n2 k2)).1 ∧
      emitted (cycles n1 k1).log (driver_init (cycles n1 k1)).2.log =
        emitted (cycles n2 k2).log (driver_init (cycles n2 k2)).2.log ∧
      emitted (cycles n1 k1).log (driver_exit (cycles n1 k1)).2.log =
        emitted (cycles n2 k2).log (driver_exit (cycles n2 k2)).2.log := by
  refine ⟨rfl, ?_, ?_⟩
  · rw [driver_init_log, driver_init_log, emitted_append, emitted_append]
  · rw [driver_exit_log, driver_exit_log, emitted_append, emitted_append]

end Driver
